import Mathlib

/-!
Verification of the spreadsheet keyword-automation service (`main.py`).

The service reads keyword rows from a spreadsheet, queries a market-data
API per keyword, and writes derived metrics back.  We give a shallow
embedding: Python values occurring in cells and API attributes become the
inductive `PyVal`; dynamic attribute objects become `String → Option PyVal`;
the two external collaborators (market-data client and spreadsheet write)
become oracles in a `Ctx`; every observable effect (reading the sheet,
writing a cell range, appending a log line) becomes an `Event`; exceptions
become `Except String`.  Machine arithmetic of the source is Python
arbitrary-precision `int` / `float`, embedded as `ℚ`.
-/

/-- A Python value as it occurs in spreadsheet cells, API attributes and
written ranges: a number (`int`/`float`, embedded as `ℚ`), a string,
`None`, or any other object. -/
inductive PyVal where
  | num (q : ℚ)
  | str (s : String)
  | pynone
  | other
  deriving Repr, DecidableEq

/-- Python truthiness of a `PyVal`: `0`, `""` and `None` are falsy;
other objects are truthy (as for default Python objects). -/
def truthy : PyVal → Bool
  | .num q => q != 0
  | .str s => s != ""
  | .pynone => false
  | .other => true

/-- Rendering of a `PyVal` inside an f-string (only used to build log
messages; claims never depend on the exact rendering of non-strings). -/
def pyStr : PyVal → String
  | .num q => toString q
  | .str s => s
  | .pynone => "None"
  | .other => "object"

/-- A Python object with dynamic attributes, accessed by `getattr`:
a partial map from attribute name to value.  `none` models an absent
attribute. -/
def AttrObj : Type := String → Option PyVal

/-- `safe_getattr(obj, attr, default=0)` from `main.py` (lines 75-77):
`getattr` with a default, then the value is kept only when it is an
`int`, `float` or `str`; anything else (including `None` or another
object) is replaced by the default.  All call sites pass default `0`. -/
def safe_getattr (obj : AttrObj) (attr : String) (default : PyVal) : PyVal :=
  let value := (obj attr).getD default
  match value with
  | .num q => .num q
  | .str s => .str s
  | _ => default

/-- `is_row_empty(row_data)` from `main.py` (lines 80-81):
`all(not cell for cell in row_data[1:])` — every cell after the keyword
column is falsy. -/
def is_row_empty (row_data : List PyVal) : Bool :=
  row_data.tail.all (fun cell => !truthy cell)

/-- Using a `PyVal` as a number in `+=` / comparisons.  `safe_getattr`
with default `0` yields either a number or a string; a string raises
`TypeError` at `total += value` (caught by the enclosing handler), and
any other value would raise likewise. -/
def toNum : PyVal → Except String ℚ
  | .num q => .ok q
  | _ => .error "unsupported operand type for +="

/-- The accumulator of the product-aggregation loop of
`fetch_product_data` (`main.py` lines 121-154): one field per local
variable of the source. -/
structure Agg where
  total_sales : ℚ
  total_revenue : ℚ
  total_price : ℚ
  total_reviews : ℚ
  highest_price : ℚ
  highest_price_units : ℚ
  second_highest_price : ℚ
  second_highest_units : ℚ
  third_highest_price : ℚ
  third_highest_units : ℚ
  sellers_with_low_reviews : ℕ
  irrelevant_listings : ℕ
  count : ℕ
  deriving Repr, DecidableEq

/-- The initial accumulator: every local starts at `0`
(`main.py` lines 121-127). -/
def initAgg : Agg :=
  ⟨0, 0, 0, 0, 0, 0, 0, 0, 0, 0, 0, 0, 0⟩

/-- The running-sum updates of one loop iteration
(`main.py` lines 136-140). -/
def sumsUpdate (s : Agg) (units_sold revenue price reviews : ℚ) : Agg :=
  { s with
    total_sales := s.total_sales + units_sold
    total_revenue := s.total_revenue + revenue
    total_price := s.total_price + price
    total_reviews := s.total_reviews + reviews
    count := s.count + 1 }

/-- The tier insertion of one qualifying listing
(`main.py` lines 143-151): the `if price > highest` / `elif` chain with
strict comparisons, shifting lower tiers down. -/
def tierUpdate (s : Agg) (price units_sold : ℚ) : Agg :=
  if price > s.highest_price then
    { s with
      third_highest_price := s.second_highest_price
      third_highest_units := s.second_highest_units
      second_highest_price := s.highest_price
      second_highest_units := s.highest_price_units
      highest_price := price
      highest_price_units := units_sold }
  else if price > s.second_highest_price then
    { s with
      third_highest_price := s.second_highest_price
      third_highest_units := s.second_highest_units
      second_highest_price := price
      second_highest_units := units_sold }
  else if price > s.third_highest_price then
    { s with
      third_highest_price := price
      third_highest_units := units_sold }
  else s

/-- The low-review counter update (`main.py` lines 153-154). -/
def lowReviewUpdate (s : Agg) (reviews : ℚ) : Agg :=
  if reviews < 100 then
    { s with sellers_with_low_reviews := s.sellers_with_low_reviews + 1 }
  else s

/-- One iteration of the aggregation loop (`main.py` lines 129-154):
extract the four metrics with `safe_getattr` (each defaulting to `0`),
accumulate sums (a non-numeric value raises here, in source order),
insertion-sort qualifying listings (units sold ≥ 100) into the tiers,
and count low-review sellers. -/
def aggStep (s : Agg) (attributes : AttrObj) : Except String Agg :=
  match toNum (safe_getattr attributes "approximate_30_day_units_sold" (.num 0)),
        toNum (safe_getattr attributes "approximate_30_day_revenue" (.num 0)),
        toNum (safe_getattr attributes "price" (.num 0)),
        toNum (safe_getattr attributes "reviews" (.num 0)) with
  | .ok units_sold, .ok revenue, .ok price, .ok reviews =>
    let s1 := sumsUpdate s units_sold revenue price reviews
    let s2 := if units_sold ≥ 100 then tierUpdate s1 price units_sold else s1
    .ok (lowReviewUpdate s2 reviews)
  | .error e, _, _, _ => .error e
  | _, .error e, _, _ => .error e
  | _, _, .error e, _ => .error e
  | _, _, _, .error e => .error e

/-- The aggregation loop over `response.data`: a left fold of `aggStep`,
aborting at the first raised exception. -/
def aggLoop (s : Agg) : List AttrObj → Except String Agg
  | [] => .ok s
  | p :: ps =>
    match aggStep s p with
    | .error e => .error e
    | .ok s1 => aggLoop s1 ps

/-- The whole single pass of `fetch_product_data` over a product list
(`main.py` lines 121-154). -/
def aggregate (products : List AttrObj) : Except String Agg :=
  aggLoop initAgg products

/-- `avg_sales` (`main.py` line 156): `total / count if count else 0`. -/
def avgSales (s : Agg) : ℚ :=
  if s.count = 0 then 0 else s.total_sales / s.count

/-- `avg_revenue` (`main.py` line 157). -/
def avgRevenue (s : Agg) : ℚ :=
  if s.count = 0 then 0 else s.total_revenue / s.count

/-- `avg_price` (`main.py` line 158). -/
def avgPrice (s : Agg) : ℚ :=
  if s.count = 0 then 0 else s.total_price / s.count

/-- `avg_reviews` (`main.py` line 159). -/
def avgReviews (s : Agg) : ℚ :=
  if s.count = 0 then 0 else s.total_reviews / s.count

/-- The 12-value list written to `F{row}:Q{row}`
(`main.py` lines 161-167), in source order. -/
def writeVals (s : Agg) : List PyVal :=
  [ .num (avgSales s), .num (avgRevenue s), .num (avgPrice s), .num (avgReviews s),
    .num s.highest_price, .num s.highest_price_units,
    .num s.second_highest_price, .num s.second_highest_units,
    .num s.third_highest_price, .num s.third_highest_units,
    .num s.sellers_with_low_reviews, .num s.irrelevant_listings ]

/-- An observable effect of one run: reading the full sheet
(`get_all_values`), a completed cell-range write (`sheet.update`), or an
appended log line (`log_message`). -/
inductive Event where
  | readAll
  | update (range : String) (values : List PyVal)
  | logLine (msg : String)
  deriving Repr, DecidableEq

/-- The external collaborators, as oracles: the keyword-insight query
(`client.keywords_by_keyword`, returning the `data` list of attribute
objects), the product-database query (`client.product_database`,
returning the `data` list of `attributes` objects), and the spreadsheet
range write (`sheet.update`).  An `.error` models a raised exception. -/
structure Ctx where
  kwApi : PyVal → Except String (List AttrObj)
  prodApi : PyVal → Except String (List AttrObj)
  updateRes : String → List PyVal → Except String Unit

/-- The 23-value list written to `B{row}` by `fetch_keyword_insights`
(`main.py` lines 92-107), in source order: four keyword metrics, three
groups of four `None` placeholders, then seven more keyword metrics. -/
def kwValues (keyword_data : AttrObj) : List PyVal :=
  [ safe_getattr keyword_data "monthly_search_volume_exact" (.num 0),
    safe_getattr keyword_data "monthly_search_volume_broad" (.num 0),
    safe_getattr keyword_data "ease_of_ranking_score" (.num 0),
    safe_getattr keyword_data "sponsored_product_count" (.num 0),
    .pynone, .pynone, .pynone, .pynone,
    .pynone, .pynone, .pynone, .pynone,
    .pynone, .pynone, .pynone, .pynone,
    safe_getattr keyword_data "monthly_trend" (.num 0),
    safe_getattr keyword_data "quarterly_trend" (.num 0),
    safe_getattr keyword_data "recommended_promotions" (.num 0),
    safe_getattr keyword_data "sp_brand_ad_bid" (.num 0),
    safe_getattr keyword_data "ppc_bid_broad" (.num 0),
    safe_getattr keyword_data "ppc_bid_exact" (.num 0),
    safe_getattr keyword_data "estimated_30_day_search_volume" (.num 0) ]

/-- `fetch_keyword_insights(sheet, keyword, row_index)` (`main.py`
lines 84-111): query the keyword-insight API; on empty `data` log and
return without writing; otherwise write `kwValues` of `data[0]` to
`B{row_index}`.  Any exception of the fetch or the write is caught and
logged; the function always returns (it never propagates). -/
def fetch_keyword_insights (ctx : Ctx) (keyword : PyVal) (row_index : ℕ) : List Event :=
  match ctx.kwApi keyword with
  | .error e =>
    [.logLine ("Error fetching keyword insights for " ++ pyStr keyword ++ ": " ++ e)]
  | .ok [] =>
    [.logLine ("No keyword insight data returned for: " ++ pyStr keyword)]
  | .ok (keyword_data :: _) =>
    match ctx.updateRes ("B" ++ toString row_index) (kwValues keyword_data) with
    | .error e =>
      [.logLine ("Error fetching keyword insights for " ++ pyStr keyword ++ ": " ++ e)]
    | .ok _ =>
      [.update ("B" ++ toString row_index) (kwValues keyword_data),
       .logLine ("Keyword insight data for " ++ pyStr keyword ++ " updated in Google Sheet.")]

/-- The error log line of `fetch_product_data` (`main.py` line 171). -/
def prodErrMsg (keyword : PyVal) (e : String) : String :=
  "Error fetching product data for " ++ pyStr keyword ++ ": " ++ e

/-- The `F{row}:Q{row}` range string of `fetch_product_data`
(`main.py` line 161). -/
def prodRange (row_index : ℕ) : String :=
  "F" ++ toString row_index ++ ":Q" ++ toString row_index

/-- `fetch_product_data(sheet, keyword, row_index)` (`main.py`
lines 114-171): query the product database; on empty `data` log and
return without writing; otherwise run the aggregation pass and write the
12 values to `F{row_index}:Q{row_index}`.  Any exception of the fetch,
the aggregation arithmetic or the write is caught and logged; the
function always returns. -/
def fetch_product_data (ctx : Ctx) (keyword : PyVal) (row_index : ℕ) : List Event :=
  match ctx.prodApi keyword with
  | .error e => [.logLine (prodErrMsg keyword e)]
  | .ok [] =>
    [.logLine ("No product database data returned for keyword: " ++ pyStr keyword)]
  | .ok (p :: ps) =>
    match aggregate (p :: ps) with
    | .error e => [.logLine (prodErrMsg keyword e)]
    | .ok s =>
      match ctx.updateRes (prodRange row_index) (writeVals s) with
      | .error e => [.logLine (prodErrMsg keyword e)]
      | .ok _ =>
        [.update (prodRange row_index) (writeVals s),
         .logLine ("Product data for " ++ pyStr keyword ++ " updated in Google Sheet.")]

/-- The `"all"`-mode row loop (`main.py` lines 182-185):
`for idx, row in enumerate(data_rows, start=2): if row[0]: ...`.
Returns the emitted events together with `some e` when an exception
escaped the loop — `row[0]` on a zero-cell row raises `IndexError`
("list index out of range"), abandoning the remaining rows; the events
already emitted stay in the log buffer. -/
def processAll (ctx : Ctx) : List (List PyVal) → ℕ → List Event × Option String
  | [], _ => ([], none)
  | [] :: _, _ => ([], some "list index out of range")
  | (c :: _) :: rest, idx =>
    let evs := if truthy c then
        fetch_keyword_insights ctx c idx ++ fetch_product_data ctx c idx
      else []
    let tl := processAll ctx rest (idx + 1)
    (evs ++ tl.1, tl.2)

/-- The `"new"`-mode row loop (`main.py` lines 188-191): as `processAll`
but guarded by `row[0] and is_row_empty(row)`. -/
def processNew (ctx : Ctx) : List (List PyVal) → ℕ → List Event × Option String
  | [], _ => ([], none)
  | [] :: _, _ => ([], some "list index out of range")
  | (c :: cs) :: rest, idx =>
    let evs := if truthy c && is_row_empty (c :: cs) then
        fetch_keyword_insights ctx c idx ++ fetch_product_data ctx c idx
      else []
    let tl := processNew ctx rest (idx + 1)
    (evs ++ tl.1, tl.2)

/-- The HTTP-level outcome of `run_automation`: the success body, or an
`HTTPException` with status code and detail. -/
inductive RunResult where
  | success
  | httpError (status_code : ℕ) (detail : String)
  deriving Repr, DecidableEq

/-- `run_automation(request)` (`main.py` lines 173-199), given the rows
that `get_all_values` returns.  Everything — including the
`HTTPException(400, "Invalid update mode")` raised for a bad mode — sits
inside the `try`, and `except Exception` catches `HTTPException` too, so
every exception is logged (`Error in automation: ...`) and re-raised as
a 500.  The sheet is connected and fully read (the `readAll` event)
before the mode is examined. -/
def run_automation (ctx : Ctx) (rows : List (List PyVal)) (update_mode : String) :
    RunResult × List Event :=
  let data_rows := rows.tail
  if update_mode = "all" then
    let r := processAll ctx data_rows 2
    match r.2 with
    | none =>
      (.success, .readAll :: .logLine "Processing all rows..." :: r.1)
    | some e =>
      (.httpError 500 "Internal Server Error",
       .readAll :: .logLine "Processing all rows..." ::
         (r.1 ++ [.logLine ("Error in automation: " ++ e)]))
  else if update_mode = "new" then
    let r := processNew ctx data_rows 2
    match r.2 with
    | none =>
      (.success, .readAll :: .logLine "Processing new rows..." :: r.1)
    | some e =>
      (.httpError 500 "Internal Server Error",
       .readAll :: .logLine "Processing new rows..." ::
         (r.1 ++ [.logLine ("Error in automation: " ++ e)]))
  else
    (.httpError 500 "Internal Server Error",
     [.readAll, .logLine "Error in automation: 400: Invalid update mode"])

/-- The ordered `(row index, keyword)` pairs the `"all"` loop processes
(`main.py` lines 182-185): rows with a truthy keyword cell, numbered
from 2; a zero-cell row aborts the run, so nothing after it is
selected. -/
def selectedAll : List (List PyVal) → ℕ → List (ℕ × PyVal)
  | [], _ => []
  | [] :: _, _ => []
  | (c :: _) :: rest, idx =>
    (if truthy c then [(idx, c)] else []) ++ selectedAll rest (idx + 1)

/-- The ordered `(row index, keyword)` pairs the `"new"` loop processes
(`main.py` lines 188-191): rows with a truthy keyword cell whose other
cells are all falsy. -/
def selectedNew : List (List PyVal) → ℕ → List (ℕ × PyVal)
  | [], _ => []
  | [] :: _, _ => []
  | (c :: cs) :: rest, idx =>
    (if truthy c && is_row_empty (c :: cs) then [(idx, c)] else []) ++
      selectedNew rest (idx + 1)

/-- `get_logs` (`main.py` lines 54-60), as a function of the current log
buffer: returns the response payload (the full accumulated sequence) and
the new buffer (emptied). -/
def get_logs (log_buffer : List String) : List String × List String :=
  (log_buffer, [])

/-- The aggregation accumulator extended with ghost placement flags:
`placedHighest` (resp. `Second`, `Third`) records that some qualifying
listing's `(price, units)` pair was placed into that tier, either
directly by the `if`/`elif` chain or by being shifted down from a higher
tier.  The flags are ghost state: they never influence the computed
`Agg` (see `aggLoopG_agrees`). -/
structure AggG where
  s : Agg
  placedHighest : Bool
  placedSecond : Bool
  placedThird : Bool
  deriving Repr, DecidableEq

/-- `tierUpdate` with ghost placement tracking: the tier that receives
the new pair is marked placed, and flags shift down with the values. -/
def tierUpdateG (g : AggG) (price units_sold : ℚ) : AggG :=
  if price > g.s.highest_price then
    { s := tierUpdate g.s price units_sold,
      placedHighest := true, placedSecond := g.placedHighest, placedThird := g.placedSecond }
  else if price > g.s.second_highest_price then
    { s := tierUpdate g.s price units_sold,
      placedHighest := g.placedHighest, placedSecond := true, placedThird := g.placedSecond }
  else if price > g.s.third_highest_price then
    { s := tierUpdate g.s price units_sold,
      placedHighest := g.placedHighest, placedSecond := g.placedSecond, placedThird := true }
  else g

/-- `aggStep` with ghost placement tracking. -/
def aggStepG (g : AggG) (attributes : AttrObj) : Except String AggG :=
  match toNum (safe_getattr attributes "approximate_30_day_units_sold" (.num 0)),
        toNum (safe_getattr attributes "approximate_30_day_revenue" (.num 0)),
        toNum (safe_getattr attributes "price" (.num 0)),
        toNum (safe_getattr attributes "reviews" (.num 0)) with
  | .ok units_sold, .ok revenue, .ok price, .ok reviews =>
    let g1 : AggG := { g with s := sumsUpdate g.s units_sold revenue price reviews }
    let g2 := if units_sold ≥ 100 then tierUpdateG g1 price units_sold else g1
    .ok { g2 with s := lowReviewUpdate g2.s reviews }
  | .error e, _, _, _ => .error e
  | _, .error e, _, _ => .error e
  | _, _, .error e, _ => .error e
  | _, _, _, .error e => .error e

/-- `aggLoop` with ghost placement tracking. -/
def aggLoopG (g : AggG) : List AttrObj → Except String AggG
  | [] => .ok g
  | p :: ps =>
    match aggStepG g p with
    | .error e => .error e
    | .ok g1 => aggLoopG g1 ps

/-- `aggregate` with ghost placement tracking, from the all-zero,
nothing-placed initial state. -/
def aggregateG (products : List AttrObj) : Except String AggG :=
  aggLoopG ⟨initAgg, false, false, false⟩ products

/-- The four numeric metrics of one listing, as extracted by the loop
body via `safe_getattr`: `some (units_sold, revenue, price, reviews)`
when all four uses are numeric, `none` when one of them would raise. -/
def prodFields (attributes : AttrObj) : Option (ℚ × ℚ × ℚ × ℚ) :=
  match toNum (safe_getattr attributes "approximate_30_day_units_sold" (.num 0)),
        toNum (safe_getattr attributes "approximate_30_day_revenue" (.num 0)),
        toNum (safe_getattr attributes "price" (.num 0)),
        toNum (safe_getattr attributes "reviews" (.num 0)) with
  | .ok units_sold, .ok revenue, .ok price, .ok reviews =>
    some (units_sold, revenue, price, reviews)
  | _, _, _, _ => none

/-- Concrete listing 1 of the spec scenario: units 150, price 20,
reviews 50 (no revenue attribute). -/
def prod1 : AttrObj := fun a =>
  if a = "approximate_30_day_units_sold" then some (.num 150)
  else if a = "price" then some (.num 20)
  else if a = "reviews" then some (.num 50)
  else none

/-- Concrete listing 2 of the spec scenario: units 200, price 30,
reviews 150. -/
def prod2 : AttrObj := fun a =>
  if a = "approximate_30_day_units_sold" then some (.num 200)
  else if a = "price" then some (.num 30)
  else if a = "reviews" then some (.num 150)
  else none

/-- Concrete listing 3 of the spec scenario: units 50, price 100,
reviews 5 (non-qualifying: units < 100). -/
def prod3 : AttrObj := fun a =>
  if a = "approximate_30_day_units_sold" then some (.num 50)
  else if a = "price" then some (.num 100)
  else if a = "reviews" then some (.num 5)
  else none

/-- A concrete keyword-insight attribute object: one numeric attribute,
everything else absent. -/
def attrs0 : AttrObj := fun a =>
  if a = "monthly_search_volume_exact" then some (.num 1000) else none

/-- A benign concrete context: both queries return empty data, writes
succeed. -/
def ctx0 : Ctx :=
  ⟨fun _ => .ok [], fun _ => .ok [], fun _ _ => .ok ()⟩

/-- The concrete context of the spec scenario: the product query returns
the three listings above. -/
def ctx4 : Ctx :=
  ⟨fun _ => .ok [], fun _ => .ok [prod1, prod2, prod3], fun _ _ => .ok ()⟩

/-- A context whose keyword-insight query returns one attribute object
and whose writes succeed. -/
def ctx7 : Ctx :=
  ⟨fun _ => .ok [attrs0], fun _ => .ok [], fun _ _ => .ok ()⟩

/-- A context whose two market-data queries always raise. -/
def ctxE : Ctx :=
  ⟨fun _ => .error "boom", fun _ => .error "boom", fun _ _ => .ok ()⟩

/-- A context whose queries return data but whose sheet writes always
raise. -/
def ctxW : Ctx :=
  ⟨fun _ => .ok [attrs0], fun _ => .ok [prod1], fun _ _ => .error "wboom"⟩

/-- A concrete snapshot with a header, one keyword-only row, a zero-cell
row and a further keyword row. -/
def sheet10 : List (List PyVal) :=
  [[.str "Keyword"], [.str "kw"], [], [.str "kw2"]]

/-- The ghost aggregation state after processing `[prod1]`. -/
def gW : AggG :=
  ⟨⟨150, 0, 20, 50, 20, 150, 0, 0, 0, 0, 1, 0, 1⟩, true, false, false⟩

/-- The aggregation state after processing `[prod1]`. -/
def aggW : Agg :=
  ⟨150, 0, 20, 50, 20, 150, 0, 0, 0, 0, 1, 0, 1⟩

/-- The value `aggStep` produces for a listing whose four metrics are
numeric: the sums update, the conditional tier insertion, the low-review
count. -/
def stepVal (s : Agg) (units_sold revenue price reviews : ℚ) : Agg :=
  lowReviewUpdate
    (if units_sold ≥ 100 then tierUpdate (sumsUpdate s units_sold revenue price reviews) price units_sold
     else sumsUpdate s units_sold revenue price reviews) reviews

/-- The tier invariant carried through the ghost aggregation: prices are
non-increasing (and nonnegative), and a tier that never had a qualifying
listing placed into it still holds the sentinel `(0, 0)`. -/
def InvG (g : AggG) : Prop :=
  g.s.second_highest_price ≤ g.s.highest_price ∧
  g.s.third_highest_price ≤ g.s.second_highest_price ∧
  0 ≤ g.s.third_highest_price ∧
  (g.placedHighest = false → g.s.highest_price = 0 ∧ g.s.highest_price_units = 0) ∧
  (g.placedSecond = false → g.s.second_highest_price = 0 ∧ g.s.second_highest_units = 0) ∧
  (g.placedThird = false → g.s.third_highest_price = 0 ∧ g.s.third_highest_units = 0)

theorem tierUpdateG_s (g : AggG) (p u : ℚ) :
    (tierUpdateG g p u).s = tierUpdate g.s p u := by
  unfold tierUpdateG tierUpdate
  split_ifs <;> rfl

theorem invG_tierUpdateG (g : AggG) (p u : ℚ) (h : InvG g) :
    InvG (tierUpdateG g p u) := by
  obtain ⟨h1, h2, h3, h4, h5, h6⟩ := h
  unfold tierUpdateG tierUpdate InvG
  split_ifs with c1 c2 c3
  · exact ⟨le_of_lt c1, h1, le_trans h3 h2, by simp,
      fun hf => h4 hf, fun hf => h5 hf⟩
  · exact ⟨le_of_not_lt c1, le_of_lt c2, le_trans h3 h2, fun hf => h4 hf,
      by simp, fun hf => h5 hf⟩
  · exact ⟨h1, le_of_not_lt c2, le_of_lt (lt_of_le_of_lt h3 c3), fun hf => h4 hf,
      fun hf => h5 hf, by simp⟩
  · exact ⟨h1, h2, h3, h4, h5, h6⟩

theorem invG_sums (g : AggG) (u r p v : ℚ) (h : InvG g) :
    InvG { g with s := sumsUpdate g.s u r p v } := by
  simpa [InvG, sumsUpdate] using h

theorem invG_lowReview (g : AggG) (v : ℚ) (h : InvG g) :
    InvG { g with s := lowReviewUpdate g.s v } := by
  unfold lowReviewUpdate
  split_ifs <;> simpa [InvG] using h

theorem invG_step (g g1 : AggG) (p : AttrObj) (h : InvG g)
    (he : aggStepG g p = .ok g1) : InvG g1 := by
  unfold aggStepG at he
  split at he
  case _ =>
    rename_i u r pr v heq1 heq2 heq3 heq4
    simp only [Except.ok.injEq] at he
    subst he
    have hg1 : InvG { g with s := sumsUpdate g.s u r pr v } := invG_sums g u r pr v h
    by_cases hq : u ≥ 100
    · rw [if_pos hq]
      exact invG_lowReview _ v (invG_tierUpdateG _ pr u hg1)
    · rw [if_neg hq]
      exact invG_lowReview _ v hg1
  all_goals exact Except.noConfusion he

theorem invG_loop (ps : List AttrObj) : ∀ (g g1 : AggG), InvG g →
    aggLoopG g ps = .ok g1 → InvG g1 := by
  induction ps with
  | nil =>
    intro g g1 h he
    simp only [aggLoopG, Except.ok.injEq] at he
    subst he; exact h
  | cons p rest ih =>
    intro g g1 h he
    simp only [aggLoopG] at he
    cases hs : aggStepG g p with
    | error e => rw [hs] at he; simp at he
    | ok g2 =>
      rw [hs] at he
      exact ih g2 g1 (invG_step g g2 p h hs) he

theorem aggStepG_agrees (g : AggG) (p : AttrObj) :
    (aggStepG g p).map AggG.s = aggStep g.s p := by
  unfold aggStepG aggStep
  generalize toNum (safe_getattr p "approximate_30_day_units_sold" (PyVal.num 0)) = x1
  generalize toNum (safe_getattr p "approximate_30_day_revenue" (PyVal.num 0)) = x2
  generalize toNum (safe_getattr p "price" (PyVal.num 0)) = x3
  generalize toNum (safe_getattr p "reviews" (PyVal.num 0)) = x4
  cases x1 <;> cases x2 <;> cases x3 <;> cases x4 <;>
    simp [Except.map, apply_ite AggG.s, tierUpdateG_s]

theorem aggLoopG_agrees (ps : List AttrObj) : ∀ (g : AggG),
    (aggLoopG g ps).map AggG.s = aggLoop g.s ps := by
  induction ps with
  | nil => intro g; rfl
  | cons p rest ih =>
    intro g
    simp only [aggLoopG, aggLoop]
    cases hs : aggStepG g p with
    | error e =>
      have := aggStepG_agrees g p
      rw [hs] at this
      rw [← this]
      rfl
    | ok g1 =>
      have := aggStepG_agrees g p
      rw [hs] at this
      rw [← this]
      exact ih g1

/-- C2: after the single aggregation pass over any list of product
records, the three `(price, units)` tiers satisfy
`highest ≥ second ≥ third` in price, and every tier into which no
qualifying listing (units sold ≥ 100) was placed — tracked by the ghost
`placed*` flags of `aggregateG`, which agrees with the source pass
`aggregate` — is exactly the sentinel `(0, 0)`. -/
theorem C2_tier_invariant (products : List AttrObj) (g : AggG)
    (h : aggregateG products = .ok g) :
    aggregate products = .ok g.s ∧
    g.s.second_highest_price ≤ g.s.highest_price ∧
    g.s.third_highest_price ≤ g.s.second_highest_price ∧
    (g.placedHighest = false → g.s.highest_price = 0 ∧ g.s.highest_price_units = 0) ∧
    (g.placedSecond = false → g.s.second_highest_price = 0 ∧ g.s.second_highest_units = 0) ∧
    (g.placedThird = false → g.s.third_highest_price = 0 ∧ g.s.third_highest_units = 0) := by
  have hag : aggregate products = .ok g.s := by
    have hmap := aggLoopG_agrees products ⟨initAgg, false, false, false⟩
    rw [aggregateG] at h
    rw [aggregate, ← hmap, h]
    rfl
  have hinv : InvG g :=
    invG_loop products ⟨initAgg, false, false, false⟩ g (by simp [InvG, initAgg]) h
  exact ⟨hag, hinv.1, hinv.2.1, hinv.2.2.2.1, hinv.2.2.2.2.1, hinv.2.2.2.2.2⟩

theorem C2_tier_invariant_witness :
    aggregate [prod1] = .ok gW.s ∧
    gW.s.second_highest_price ≤ gW.s.highest_price ∧
    (gW.placedSecond = false → gW.s.second_highest_price = 0 ∧ gW.s.second_highest_units = 0) := by
  have h : aggregateG [prod1] = .ok gW := by
    simp +decide only [aggregateG, aggLoopG, aggStepG, safe_getattr, toNum, sumsUpdate,
      tierUpdateG, tierUpdate, lowReviewUpdate, initAgg, prod1, gW]
    norm_num
  exact ⟨(C2_tier_invariant [prod1] gW h).1, (C2_tier_invariant [prod1] gW h).2.1,
    (C2_tier_invariant [prod1] gW h).2.2.2.2.1⟩

theorem aggStep_eq (s : Agg) (p : AttrObj) (u r pr v : ℚ)
    (h : prodFields p = some (u, r, pr, v)) :
    aggStep s p = .ok (stepVal s u r pr v) := by
  unfold prodFields at h
  split at h
  case _ =>
    rename_i u0 r0 pr0 v0 heq1 heq2 heq3 heq4
    simp only [Option.some.injEq, Prod.mk.injEq] at h
    obtain ⟨h1, h2, h3, h4⟩ := h
    subst h1; subst h2; subst h3; subst h4
    unfold aggStep stepVal
    rw [heq1, heq2, heq3, heq4]
  case _ => exact Option.noConfusion h

theorem stepVal_totals (s : Agg) (u r pr v : ℚ) :
    (stepVal s u r pr v).total_sales = s.total_sales + u ∧
    (stepVal s u r pr v).total_revenue = s.total_revenue + r ∧
    (stepVal s u r pr v).total_price = s.total_price + pr ∧
    (stepVal s u r pr v).total_reviews = s.total_reviews + v ∧
    (stepVal s u r pr v).count = s.count + 1 := by
  unfold stepVal lowReviewUpdate tierUpdate sumsUpdate
  split_ifs <;> simp

theorem aggLoop_sums (ps : List AttrObj) : ∀ (qs : List (ℚ × ℚ × ℚ × ℚ)) (s : Agg),
    ps.mapM prodFields = some qs →
    ∃ t, aggLoop s ps = .ok t ∧
      t.total_sales = s.total_sales + (qs.map fun x => x.1).sum ∧
      t.total_revenue = s.total_revenue + (qs.map fun x => x.2.1).sum ∧
      t.total_price = s.total_price + (qs.map fun x => x.2.2.1).sum ∧
      t.total_reviews = s.total_reviews + (qs.map fun x => x.2.2.2).sum ∧
      t.count = s.count + qs.length := by
  induction ps with
  | nil =>
    intro qs s h
    simp only [List.mapM_nil, Option.pure_def, Option.some.injEq] at h
    subst h
    exact ⟨s, rfl, by simp, by simp, by simp, by simp, by simp⟩
  | cons p rest ih =>
    intro qs s h
    rw [List.mapM_cons] at h
    simp only [Option.pure_def, Option.bind_eq_bind, Option.bind_eq_some,
      Option.some.injEq] at h
    obtain ⟨q, hq, qs', hqs', rfl⟩ := h
    obtain ⟨u, r, pr, v⟩ := q
    have hstep := aggStep_eq s p u r pr v hq
    have hrec := ih qs' (stepVal s u r pr v) hqs'
    obtain ⟨t, ht, e1, e2, e3, e4, e5⟩ := hrec
    obtain ⟨f1, f2, f3, f4, f5⟩ := stepVal_totals s u r pr v
    refine ⟨t, ?_, ?_, ?_, ?_, ?_, ?_⟩
    · simp only [aggLoop, hstep]
      exact ht
    · rw [e1, f1]; simp [add_assoc]
    · rw [e2, f2]; simp [add_assoc]
    · rw [e3, f3]; simp [add_assoc]
    · rw [e4, f4]; simp [add_assoc]
    · rw [e5, f5]; simp [Nat.add_assoc, Nat.add_comm 1]

theorem mapM_prodFields_length (ps : List AttrObj) : ∀ qs : List (ℚ × ℚ × ℚ × ℚ),
    ps.mapM prodFields = some qs → qs.length = ps.length := by
  induction ps with
  | nil =>
    intro qs h
    simp only [List.mapM_nil, Option.pure_def, Option.some.injEq] at h
    subst h; rfl
  | cons p rest ih =>
    intro qs h
    rw [List.mapM_cons] at h
    simp only [Option.pure_def, Option.bind_eq_bind, Option.bind_eq_some,
      Option.some.injEq] at h
    obtain ⟨q, _, qs', hqs', rfl⟩ := h
    simp [ih qs' hqs']

/-- C3: each of the four average fields of the Product Aggregator is `0`
when the listing set is empty, and otherwise the arithmetic mean of the
corresponding metric over all listings (`qs` lists the four
`safe_getattr`-extracted metrics of each listing, qualifying or not). -/
theorem C3_averages (ps : List AttrObj) (qs : List (ℚ × ℚ × ℚ × ℚ)) (s : Agg)
    (hmap : ps.mapM prodFields = some qs) (hagg : aggregate ps = .ok s) :
    (ps = [] → avgSales s = 0 ∧ avgRevenue s = 0 ∧ avgPrice s = 0 ∧ avgReviews s = 0) ∧
    (ps ≠ [] →
      avgSales s = (qs.map fun x => x.1).sum / ps.length ∧
      avgRevenue s = (qs.map fun x => x.2.1).sum / ps.length ∧
      avgPrice s = (qs.map fun x => x.2.2.1).sum / ps.length ∧
      avgReviews s = (qs.map fun x => x.2.2.2).sum / ps.length) := by
  obtain ⟨t, ht, e1, e2, e3, e4, e5⟩ := aggLoop_sums ps qs initAgg hmap
  rw [aggregate, ht, Except.ok.injEq] at hagg
  rw [hagg] at e1 e2 e3 e4 e5
  have hlen : qs.length = ps.length := mapM_prodFields_length ps qs hmap
  constructor
  · intro hnil
    subst hnil
    simp only [List.mapM_nil, Option.pure_def, Option.some.injEq] at hmap
    subst hmap
    simp only [List.map_nil, List.sum_nil, List.length_nil] at e1 e2 e3 e4 e5
    have hc : s.count = 0 := by rw [e5]; rfl
    exact ⟨by simp [avgSales, hc], by simp [avgRevenue, hc],
      by simp [avgPrice, hc], by simp [avgReviews, hc]⟩
  · intro hne
    have hc : s.count = ps.length := by rw [e5, ← hlen]; simp [initAgg]
    have hcne : s.count ≠ 0 := by
      rw [hc]
      simpa [List.length_eq_zero] using hne
    have hts : s.total_sales = (qs.map fun x => x.1).sum := by rw [e1]; simp [initAgg]
    have htr : s.total_revenue = (qs.map fun x => x.2.1).sum := by rw [e2]; simp [initAgg]
    have htp : s.total_price = (qs.map fun x => x.2.2.1).sum := by rw [e3]; simp [initAgg]
    have htv : s.total_reviews = (qs.map fun x => x.2.2.2).sum := by rw [e4]; simp [initAgg]
    refine ⟨?_, ?_, ?_, ?_⟩
    · simp only [avgSales]
      rw [if_neg hcne, hts, hc]
    · simp only [avgRevenue]
      rw [if_neg hcne, htr, hc]
    · simp only [avgPrice]
      rw [if_neg hcne, htp, hc]
    · simp only [avgReviews]
      rw [if_neg hcne, htv, hc]

theorem C3_averages_witness :
    avgSales aggW = ([((150:ℚ), (0:ℚ), (20:ℚ), (50:ℚ))].map fun x => x.1).sum / ([prod1].length) ∧
    avgRevenue aggW = ([((150:ℚ), (0:ℚ), (20:ℚ), (50:ℚ))].map fun x => x.2.1).sum / ([prod1].length) ∧
    avgPrice aggW = ([((150:ℚ), (0:ℚ), (20:ℚ), (50:ℚ))].map fun x => x.2.2.1).sum / ([prod1].length) ∧
    avgReviews aggW = ([((150:ℚ), (0:ℚ), (20:ℚ), (50:ℚ))].map fun x => x.2.2.2).sum / ([prod1].length) := by
  have h1 : [prod1].mapM prodFields = some [((150:ℚ), (0:ℚ), (20:ℚ), (50:ℚ))] := by
    simp +decide only [List.mapM_cons, List.mapM_nil, prodFields, safe_getattr, toNum, prod1]
  have h2 : aggregate [prod1] = .ok aggW := by
    simp +decide only [aggregate, aggLoop, aggStep, safe_getattr, toNum, sumsUpdate,
      tierUpdate, lowReviewUpdate, initAgg, prod1, aggW]
    norm_num
  exact (C3_averages [prod1] [((150:ℚ), (0:ℚ), (20:ℚ), (50:ℚ))] aggW h1 h2).2 (by simp)

/-- C4: on the spec scenario listings (units 150 / price 20 / reviews 50,
units 200 / price 30 / reviews 150, units 50 / price 100 / reviews 5) the
Product Aggregator excludes the third listing from tier qualification,
produces tiers highest = (30, 200), second = (20, 150), third = (0, 0),
low-review-seller count 2, averages over all three listings
(sales 400/3, revenue 0, price 50, reviews 205/3), and writes exactly
these 12 values to the range starting at column F in the order: four
averages, three (price, units) tier pairs in descending rank, low-review
count, then the always-zero irrelevant-listings placeholder. -/
theorem C4_concrete_scenario :
    fetch_product_data ctx4 (.str "kw") 5 =
      [ .update "F5:Q5"
          [ .num (400/3), .num 0, .num 50, .num (205/3),
            .num 30, .num 200, .num 20, .num 150, .num 0, .num 0, .num 2, .num 0 ],
        .logLine "Product data for kw updated in Google Sheet." ] := by
  simp +decide only [fetch_product_data, ctx4, aggregate, aggLoop, aggStep, safe_getattr,
    toNum, sumsUpdate, tierUpdate, lowReviewUpdate, initAgg, writeVals, avgSales,
    avgRevenue, avgPrice, avgReviews, prodRange, prod1, prod2, prod3, pyStr]
  norm_num
  exact ⟨rfl, rfl⟩

/-- C9: reading the `/logs` endpoint returns the full accumulated log
sequence and resets the buffer to empty, so a second read with no
intervening append returns the empty list. -/
theorem C9_logs_drain (log_buffer : List String) :
    get_logs log_buffer = (log_buffer, []) ∧
    (get_logs (get_logs log_buffer).2).1 = [] := by
  simp [get_logs]

theorem C1_bad_mode_counterexample :
    (run_automation ctx0 [[.str "Keyword"], [.str "kw"]] "bogus").1 =
      RunResult.httpError 500 "Internal Server Error" ∧
    Event.readAll ∈ (run_automation ctx0 [[.str "Keyword"], [.str "kw"]] "bogus").2 := by
  simp +decide [run_automation]

/-- C1 (amended): for every request whose `update_mode` is neither
`"all"` nor `"new"`, `run_automation` responds with an HTTP 500 server
error — the `HTTPException(400)` raised for the invalid mode is caught
by the blanket `except Exception` handler and re-raised as 500 — and the
spreadsheet rows are read (`get_all_values` runs before the mode check)
but no row is written and no updater runs. -/
theorem C1_bad_mode (ctx : Ctx) (rows : List (List PyVal)) (mode : String)
    (h1 : mode ≠ "all") (h2 : mode ≠ "new") :
    run_automation ctx rows mode =
      (.httpError 500 "Internal Server Error",
       [.readAll, .logLine "Error in automation: 400: Invalid update mode"]) := by
  rw [run_automation]
  rw [if_neg h1, if_neg h2]

theorem C1_bad_mode_witness :
    run_automation ctx0 [[.str "Keyword"], [.str "kw"]] "bogus" =
      (.httpError 500 "Internal Server Error",
       [.readAll, .logLine "Error in automation: 400: Invalid update mode"]) :=
  C1_bad_mode ctx0 [[.str "Keyword"], [.str "kw"]] "bogus" (by decide) (by decide)

theorem falsy_iff (v : PyVal) :
    (!truthy v) = true ↔ (v = .str "" ∨ v = .num 0 ∨ v = .pynone) := by
  cases v <;> simp [truthy]

/-- C5: on every snapshot, the `(row index, keyword)` pairs selected
under mode `"new"` are a subset of those selected under mode `"all"`,
and a row whose keyword cell is empty (falsy) is selected under neither
mode. -/
theorem C5_new_subset_all (rows : List (List PyVal)) (start : ℕ) :
    (∀ p : ℕ × PyVal, p ∈ selectedNew rows start → p ∈ selectedAll rows start) ∧
    (∀ (k : ℕ) (c : PyVal), (k, c) ∈ selectedAll rows start → truthy c = true) ∧
    (∀ (k : ℕ) (c : PyVal), (k, c) ∈ selectedNew rows start → truthy c = true) := by
  induction rows generalizing start with
  | nil => simp [selectedAll, selectedNew]
  | cons row rest ih =>
    cases row with
    | nil => simp [selectedAll, selectedNew]
    | cons c cs =>
      obtain ⟨ih1, ih2, ih3⟩ := ih (start + 1)
      by_cases h1 : truthy c
      · by_cases h2 : is_row_empty (c :: cs)
        · refine ⟨?_, ?_, ?_⟩
          · intro p hp
            simp only [selectedNew, selectedAll, h1, h2, Bool.and_self, if_true,
              List.mem_append, List.mem_singleton] at hp ⊢
            rcases hp with h | h
            · exact Or.inl h
            · exact Or.inr (ih1 p h)
          · intro k c0 hk
            simp only [selectedAll, h1, if_true, List.mem_append, List.mem_singleton,
              Prod.mk.injEq] at hk
            rcases hk with ⟨_, rfl⟩ | h
            · exact h1
            · exact ih2 k c0 h
          · intro k c0 hk
            simp only [selectedNew, h1, h2, Bool.and_self, if_true, List.mem_append,
              List.mem_singleton, Prod.mk.injEq] at hk
            rcases hk with ⟨_, rfl⟩ | h
            · exact h1
            · exact ih3 k c0 h
        · refine ⟨?_, ?_, ?_⟩
          · intro p hp
            simp only [selectedNew, h2, Bool.and_false, if_false, List.nil_append] at hp
            simp only [selectedAll, h1, if_true, List.mem_append, List.mem_singleton]
            exact Or.inr (ih1 p hp)
          · intro k c0 hk
            simp only [selectedAll, h1, if_true, List.mem_append, List.mem_singleton,
              Prod.mk.injEq] at hk
            rcases hk with ⟨_, rfl⟩ | h
            · exact h1
            · exact ih2 k c0 h
          · intro k c0 hk
            simp only [selectedNew, h2, Bool.and_false, if_false, List.nil_append] at hk
            exact ih3 k c0 hk
      · have h1f : truthy c = false := by simpa using h1
        refine ⟨?_, ?_, ?_⟩
        · intro p hp
          simp only [selectedNew, h1f, Bool.false_and, if_false, List.nil_append] at hp
          simp only [selectedAll, h1f, if_false, List.nil_append]
          exact ih1 p hp
        · intro k c0 hk
          simp only [selectedAll, h1f, if_false, List.nil_append] at hk
          exact ih2 k c0 hk
        · intro k c0 hk
          simp only [selectedNew, h1f, Bool.false_and, if_false, List.nil_append] at hk
          exact ih3 k c0 hk

theorem C5_new_subset_all_witness :
    ((2 : ℕ), PyVal.str "kw") ∈ selectedAll [[PyVal.str "kw"], [PyVal.str "kw2", PyVal.str "x"]] 2 ∧
    truthy (PyVal.str "kw") = true := by
  refine ⟨(C5_new_subset_all [[PyVal.str "kw"], [PyVal.str "kw2", PyVal.str "x"]] 2).1
    ((2 : ℕ), PyVal.str "kw") (by decide), ?_⟩
  exact (C5_new_subset_all [[PyVal.str "kw"], [PyVal.str "kw2", PyVal.str "x"]] 2).2.2
    2 (PyVal.str "kw") (by decide)

/-- C6: under mode `"new"`, a data row is selected iff its keyword cell
is truthy and every other metric cell is falsy — empty string, zero, or
`None` (a cell missing from a short row contributes nothing); a row with
a keyword and any prior metric value is skipped. -/
theorem C6_new_mode_selection (c : PyVal) (cells : List PyVal) (idx : ℕ) :
    (idx, c) ∈ selectedNew [c :: cells] idx ↔
      (truthy c = true ∧
       ∀ cell ∈ cells, cell = PyVal.str "" ∨ cell = PyVal.num 0 ∨ cell = PyVal.pynone) := by
  have hemp : (is_row_empty (c :: cells) = true) ↔
      (∀ cell ∈ cells, cell = PyVal.str "" ∨ cell = PyVal.num 0 ∨ cell = PyVal.pynone) := by
    simp only [is_row_empty, List.tail_cons, List.all_eq_true]
    exact ⟨fun h cell hc => (falsy_iff cell).mp (h cell hc),
           fun h cell hc => (falsy_iff cell).mpr (h cell hc)⟩
  by_cases h1 : truthy c = true
  · by_cases h2 : is_row_empty (c :: cells) = true
    · constructor
      · intro _
        exact ⟨h1, hemp.mp h2⟩
      · intro _
        simp [selectedNew, h1, h2]
    · constructor
      · intro h
        simp [selectedNew, h1, h2] at h
      · intro hh
        exact absurd (hemp.mpr hh.2) h2
  · constructor
    · intro h
      simp [selectedNew, h1] at h
    · intro hh
      exact absurd hh.1 h1

theorem C7_width_counterexample :
    fetch_keyword_insights ctx7 (.str "kw") 2 =
      [.update "B2" (kwValues attrs0),
       .logLine "Keyword insight data for kw updated in Google Sheet."] ∧
    (kwValues attrs0).length = 23 ∧ (kwValues attrs0).length ≠ 21 := by
  refine ⟨rfl, rfl, by decide⟩

/-- C7 (amended): when the keyword-insight response carries data, the
Keyword Insight Updater writes exactly a fixed 23-wide (not 21-wide)
sequence of cells starting at column B of the target row, in the source
order with three (not four) groups of four blank placeholder cells, and
any attribute missing from the response or of non-numeric/non-string
type is substituted with 0. -/
theorem C7_kw_write_layout (ctx : Ctx) (keyword : PyVal) (row_index : ℕ)
    (a : AttrObj) (rest : List AttrObj)
    (hapi : ctx.kwApi keyword = .ok (a :: rest))
    (hwr : ctx.updateRes ("B" ++ toString row_index) (kwValues a) = .ok ()) :
    fetch_keyword_insights ctx keyword row_index =
      [.update ("B" ++ toString row_index) (kwValues a),
       .logLine ("Keyword insight data for " ++ pyStr keyword ++ " updated in Google Sheet.")] ∧
    (kwValues a).length = 23 ∧
    (∀ attr, a attr = none ∨ a attr = some PyVal.pynone ∨ a attr = some PyVal.other →
       safe_getattr a attr (.num 0) = .num 0) := by
  refine ⟨?_, rfl, ?_⟩
  · simp only [fetch_keyword_insights, hapi, hwr]
  · intro attr h
    rcases h with h | h | h <;> simp [safe_getattr, h]

theorem C7_kw_write_layout_witness :
    fetch_keyword_insights ctx7 (.str "kw2") 3 =
      [.update ("B" ++ toString 3) (kwValues attrs0),
       .logLine ("Keyword insight data for " ++ pyStr (.str "kw2") ++ " updated in Google Sheet.")] ∧
    (kwValues attrs0).length = 23 :=
  ⟨(C7_kw_write_layout ctx7 (.str "kw2") 3 attrs0 [] rfl rfl).1,
   (C7_kw_write_layout ctx7 (.str "kw2") 3 attrs0 [] rfl rfl).2.1⟩

/-- C8: any exception raised during the fetch or the write of the
Keyword Insight Updater or the Product Aggregator is caught inside that
updater (each returns only a single log line naming the keyword and the
error detail, and performs no write), never propagates to the
orchestrator — the updaters are total functions — and the row loops
always continue with the remaining updater calls and rows. -/
theorem C8_exceptions_caught (ctx : Ctx) (keyword : PyVal) (idx : ℕ) (e : String) :
    (ctx.kwApi keyword = .error e →
      fetch_keyword_insights ctx keyword idx =
        [.logLine ("Error fetching keyword insights for " ++ pyStr keyword ++ ": " ++ e)]) ∧
    (∀ (a : AttrObj) (rest : List AttrObj),
      ctx.kwApi keyword = .ok (a :: rest) →
      ctx.updateRes ("B" ++ toString idx) (kwValues a) = .error e →
      fetch_keyword_insights ctx keyword idx =
        [.logLine ("Error fetching keyword insights for " ++ pyStr keyword ++ ": " ++ e)]) ∧
    (ctx.prodApi keyword = .error e →
      fetch_product_data ctx keyword idx = [.logLine (prodErrMsg keyword e)]) ∧
    (∀ (p : AttrObj) (ps : List AttrObj) (s : Agg),
      ctx.prodApi keyword = .ok (p :: ps) →
      aggregate (p :: ps) = .ok s →
      ctx.updateRes (prodRange idx) (writeVals s) = .error e →
      fetch_product_data ctx keyword idx = [.logLine (prodErrMsg keyword e)]) ∧
    (∀ (c : PyVal) (cs : List PyVal) (rest : List (List PyVal)),
      processAll ctx ((c :: cs) :: rest) idx =
        ((if truthy c then fetch_keyword_insights ctx c idx ++ fetch_product_data ctx c idx
          else []) ++ (processAll ctx rest (idx + 1)).1,
         (processAll ctx rest (idx + 1)).2) ∧
      processNew ctx ((c :: cs) :: rest) idx =
        ((if truthy c && is_row_empty (c :: cs) then
            fetch_keyword_insights ctx c idx ++ fetch_product_data ctx c idx
          else []) ++ (processNew ctx rest (idx + 1)).1,
         (processNew ctx rest (idx + 1)).2)) := by
  refine ⟨?_, ?_, ?_, ?_, ?_⟩
  · intro h
    simp only [fetch_keyword_insights, h]
  · intro a rest h1 h2
    simp only [fetch_keyword_insights, h1, h2]
  · intro h
    simp only [fetch_product_data, h]
  · intro p ps s h1 h2 h3
    simp only [fetch_product_data, h1, h2, h3]
  · intro c cs rest
    exact ⟨rfl, rfl⟩

theorem C8_exceptions_caught_witness :
    fetch_keyword_insights ctxE (.str "kw") 2 =
      [.logLine ("Error fetching keyword insights for " ++ pyStr (.str "kw") ++ ": " ++ "boom")] ∧
    fetch_product_data ctxE (.str "kw") 2 = [.logLine (prodErrMsg (.str "kw") "boom")] ∧
    fetch_keyword_insights ctxW (.str "kw") 2 =
      [.logLine ("Error fetching keyword insights for " ++ pyStr (.str "kw") ++ ": " ++ "wboom")] ∧
    fetch_product_data ctxW (.str "kw") 2 = [.logLine (prodErrMsg (.str "kw") "wboom")] := by
  refine ⟨(C8_exceptions_caught ctxE (.str "kw") 2 "boom").1 rfl,
    (C8_exceptions_caught ctxE (.str "kw") 2 "boom").2.2.1 rfl,
    (C8_exceptions_caught ctxW (.str "kw") 2 "wboom").2.1 attrs0 [] rfl rfl,
    (C8_exceptions_caught ctxW (.str "kw") 2 "wboom").2.2.2.1 prod1 [] aggW rfl ?_ rfl⟩
  simp +decide only [aggregate, aggLoop, aggStep, safe_getattr, toNum, sumsUpdate,
    tierUpdate, lowReviewUpdate, initAgg, prod1, aggW]
  norm_num

/-- C10: a snapshot containing a zero-cell data row makes
`run_automation` abort the whole run with a server-error result when it
reaches that row (accessing `row[0]` raises `IndexError`, which escapes
to the outer handler), under either valid mode: the keyword row before
it is processed, the keyword row after it is not. -/
theorem C10_empty_row_aborts (ctx : Ctx) :
    run_automation ctx sheet10 "all" =
      (.httpError 500 "Internal Server Error",
       [.readAll, .logLine "Processing all rows..."] ++
         (fetch_keyword_insights ctx (.str "kw") 2 ++ fetch_product_data ctx (.str "kw") 2) ++
         [.logLine "Error in automation: list index out of range"]) ∧
    run_automation ctx sheet10 "new" =
      (.httpError 500 "Internal Server Error",
       [.readAll, .logLine "Processing new rows..."] ++
         (fetch_keyword_insights ctx (.str "kw") 2 ++ fetch_product_data ctx (.str "kw") 2) ++
         [.logLine "Error in automation: list index out of range"]) := by
  constructor <;>
    simp +decide [run_automation, processAll, processNew, sheet10, is_row_empty, truthy]
